import Mathlib

/-!
Verification development for the pymongorm object-document mapper.

The embedding models `src/mongorm/documents.py` and `src/pymongorm/fields.py`
(Python 2) as pure Lean functions over an explicit program state:

* Python objects with identity (lists, document instances) live in explicit
  heaps addressed by natural numbers, so aliasing and reference equality are
  observable.
* Exceptions are modelled with `Except PyErr`; an exception discards the
  partially mutated state (no claim below inspects state after a failure).
* `weakref` entries in the per-class identity cache (`__cache__`) are modelled
  as live bindings: the weakref death callback removes entries, so while a
  strong reference is held -- the situation every claim below speaks about --
  presence in the cache means the referent is alive.
* The external collaborators `get_collection` / `get_database`
  (`mongorm/connection.py`, not part of the modelled core) are modelled as a
  name-indexed map of in-memory collections with pymongo's documented
  behaviour: `insert` assigns a fresh id and stores the document, `update`
  with a plain document is a full replace, `find_one` returns the first match
  or `None`, `db.dereference` fetches by collection name and id.
-/

/-- Heap address of a mutable Python object. -/
abbrev Addr := Nat

/-- Python values reachable in the modelled code: primitives, `ObjectId`s,
`DBRef`s, mutable lists (by heap address) and document instances (by heap
address). -/
inductive Value where
  | pyNone : Value
  | int : Int → Value
  | str : String → Value
  | boolV : Bool → Value
  | oid : Nat → Value
  | dbref : String → Value → Value
  | listV : Addr → Value
  | docV : Addr → Value
  deriving DecidableEq, Repr

/-- The Python types the source validates against (`basestring`, `ObjectId`,
`DBRef`, `list`, `int`). -/
inductive PyType where
  | tStr | tInt | tBool | tList | tObjectId | tDBRef
  deriving DecidableEq, Repr

/-- `isinstance(v, t)` for the modelled values and types. -/
def isinst : Value → PyType → Bool
  | .str _, .tStr => true
  | .int _, .tInt => true
  | .boolV _, .tBool => true
  | .listV _, .tList => true
  | .oid _, .tObjectId => true
  | .dbref _ _, .tDBRef => true
  | _, _ => false

/-- `isinstance(v, types)` with a tuple of types (empty tuple matches
nothing, exactly as in Python). -/
def isinstAny (v : Value) (ts : List PyType) : Bool := ts.any (isinst v)

/-- A Python dict with string keys, in insertion order. -/
abbrev Dict := List (String × Value)

/-- Association-list lookup (first binding wins; the update operation below
keeps keys unique). -/
def getAssoc {α β : Type} [DecidableEq α] : List (α × β) → α → Option β
  | [], _ => none
  | (k', v) :: t, k => if k' = k then some v else getAssoc t k

/-- Key-membership test. -/
def hasAssoc {α β : Type} [DecidableEq α] (l : List (α × β)) (k : α) : Bool :=
  (getAssoc l k).isSome

/-- Python dict assignment `d[k] = v`: replace in place if present, else
append (insertion order preserved). -/
def putAssoc {α β : Type} [DecidableEq α] : List (α × β) → α → β → List (α × β)
  | [], k, v => [(k, v)]
  | (k', v') :: t, k, v =>
    if k' = k then (k, v) :: t else (k', v') :: putAssoc t k v

/-- `d.get(k)` -/
def dGet (d : Dict) (k : String) : Option Value := getAssoc d k

/-- `k in d` -/
def dHas (d : Dict) (k : String) : Bool := hasAssoc d k

/-- `d[k] = v` -/
def dSet (d : Dict) (k : String) (v : Value) : Dict := putAssoc d k v

/-- `d.setdefault(k, v)` -/
def dSetdefault (d : Dict) (k : String) (v : Value) : Dict :=
  if dHas d k then d else d ++ [(k, v)]

/-- The exceptions the modelled code can raise.  `validationError` is the
`ValidationError` class defined in `fields.py`; the rest are Python built-in
exceptions that the code reaches incidentally. -/
inductive PyErr where
  | validationError (msg : String)
  | attributeError (attr : String)
  | typeError (msg : String)
  | keyError (k : String)
  | indexError
  deriving DecidableEq, Repr

/-- Rendering of a value inside an error message (used by
`Document.validate`'s `"{} missing fields: {}".format(self.name, ...)`). -/
def valRepr : Value → String
  | .pyNone => "None"
  | .int i => toString i
  | .str s => s
  | .boolV b => toString b
  | .oid n => "ObjectId(" ++ toString n ++ ")"
  | .dbref c _ => "DBRef(" ++ c ++ ")"
  | .listV a => "<list " ++ toString a ++ ">"
  | .docV a => "<Document " ++ toString a ++ ">"

/-- Field behaviour split by the descriptor class used in `fields.py`:
`Field`/`BaseField` (plain), `ObjectIdField`, `RefField`, `ListField`. -/
inductive FieldKind where
  | plain | objectIdK | refK | listK
  deriving DecidableEq, Repr

/-- A field's `default`: either a fixed value (copied with `copy.copy` per
instance) or the callable `list` (invoked fresh per instance), the two shapes
the source uses. -/
inductive Default where
  | val (v : Value)
  | producerList
  deriving DecidableEq, Repr

/-- A field declaration (one object per declaration site, shared by
subclasses through the MRO).  `declCls` records the class whose body declares
the field, standing in for the field object's identity (used as the key for
`SelfishField._value` state). -/
structure FieldDecl where
  kind : FieldKind
  types : List PyType
  default : Option Default
  required : Bool
  declCls : String
  deriving DecidableEq, Repr

/-- `Field(*types, default=, required=)` (fields.py lines 26-30, 67). -/
def mkField (declCls : String) (types : List PyType) (default : Option Default)
    (required : Bool) : FieldDecl :=
  ⟨.plain, types, default, required, declCls⟩

/-- The `_type = Field(basestring, default=clsname)` slot injected by
`MetaDocument.__new__` (documents.py line 23). -/
def typeField (clsname : String) : FieldDecl :=
  ⟨.plain, [.tStr], some (.val (.str clsname)), false, clsname⟩

/-- The `_id = ObjectIdField()` slot injected by `MetaDocument.__new__`
(documents.py line 24); `ObjectIdField.__init__` fixes `types = (ObjectId,)`
and leaves `default = None`, `required = False`. -/
def objectIdFieldFor (clsname : String) : FieldDecl :=
  ⟨.objectIdK, [.tObjectId], none, false, clsname⟩

/-- `RefField(*types, ...)`: `RefField.__init__` fixes `types = (DBRef,)`
(fields.py lines 72-74). -/
def mkRefField (declCls : String) (default : Option Default) (required : Bool) :
    FieldDecl :=
  ⟨.refK, [.tDBRef], default, required, declCls⟩

/-- `ListField(*types, ...)`: `ListField.__init__` forces
`kwargs["default"] = list` (fields.py lines 120-122); `types` validates the
list's items. -/
def mkListField (declCls : String) (types : List PyType) (required : Bool) :
    FieldDecl :=
  ⟨.listK, types, some .producerList, required, declCls⟩

/-- A document class: its name, its base class (`none` for the root
`Document`), and the fields declared in its own body. -/
structure ClassDef where
  name : String
  base : Option String
  ownFields : List (String × FieldDecl)
  deriving DecidableEq, Repr

/-- The set of document classes defined by the application (the `type`
objects produced by `MetaDocument`). -/
structure ClassEnv where
  classes : List ClassDef
  deriving DecidableEq, Repr

/-- Lookup of a class by name. -/
def findClass (env : ClassEnv) (n : String) : Option ClassDef :=
  env.classes.find? (fun c => c.name = n)

/-- The MRO chain of class names from a class up to the root (fuelled to stay
total; the fuel used below always exceeds any acyclic chain's length). -/
def ancestryF (env : ClassEnv) : Nat → String → List String
  | 0, _ => []
  | fuel + 1, n =>
    match findClass env n with
    | none => []
    | some c =>
      n :: (match c.base with
            | none => []
            | some b => ancestryF env fuel b)

/-- The MRO chain of a class (most-derived first), as used by
`Document.fields`' walk over `self.__class__.__mro__`. -/
def ancestryOf (env : ClassEnv) (n : String) : List String :=
  ancestryF env (env.classes.length + 1) n

/-- The field-valued attributes of one class after `MetaDocument.__new__`
injected `_type` and `_id` into its attribute dict (documents.py lines
22-24). -/
def classAttrs (c : ClassDef) : List (String × FieldDecl) :=
  putAssoc (putAssoc c.ownFields "_type" (typeField c.name))
    "_id" (objectIdFieldFor c.name)

/-- `dict.update` over field tables (later entries override). -/
def fUpdate (acc kvs : List (String × FieldDecl)) : List (String × FieldDecl) :=
  kvs.foldl (fun a p => putAssoc a p.1 p.2) acc

/-- `Document.fields` (documents.py lines 61-70): walk `__mro__` in reverse
so subclasses override base-class fields, and collect everything
field-shaped. -/
def fieldsOf (env : ClassEnv) (n : String) : List (String × FieldDecl) :=
  ((ancestryOf env n).reverse).foldl
    (fun acc cn =>
      match findClass env cn with
      | some c => fUpdate acc (classAttrs c)
      | none => acc) []

/-- A live document instance: its concrete class, its `_data` backing dict
and its other (non-field) instance attributes. -/
structure DocObj where
  cls : String
  data : Dict
  attrs : Dict
  deriving DecidableEq, Repr

/-- One stored collection: persisted documents keyed by their `_id` value,
plus the id counter the storage uses to assign fresh identities. -/
structure Collection where
  docs : List (Value × Dict)
  nextId : Nat
  deriving DecidableEq, Repr

/-- The whole mutable state: the document-instance heap, the list heap, the
per-class identity caches (`cls.__cache__[_id] -> weakref(instance)`,
modelled live), the per-field `SelfishField._value` slots, and the stored
collections. -/
structure PyState where
  docs : List DocObj
  lists : List (List Value)
  caches : List ((String × Value) × Addr)
  fvals : List ((String × String) × Value)
  colls : List (String × Collection)
  deriving DecidableEq, Repr

/-- Read a document instance off the heap (addresses used below are always
in range; out-of-range reads yield a dummy object). -/
def getDocD (st : PyState) (a : Addr) : DocObj :=
  (st.docs.get? a).getD ⟨"", [], []⟩

/-- `self._data = d` (the `data` property setter, documents.py lines 76-78). -/
def setDocData (st : PyState) (a : Addr) (d : Dict) : PyState :=
  { st with docs := st.docs.set a { getDocD st a with data := d } }

/-- Apply an update to an instance's `_data` dict. -/
def updDocData (st : PyState) (a : Addr) (f : Dict → Dict) : PyState :=
  setDocData st a (f (getDocD st a).data)

/-- Plain (non-field) instance-attribute assignment. -/
def updDocAttrs (st : PyState) (a : Addr) (f : Dict → Dict) : PyState :=
  { st with docs := st.docs.set a { getDocD st a with attrs := f (getDocD st a).attrs } }

/-- Read a list object off the list heap. -/
def readListD (st : PyState) (a : Addr) : List Value :=
  (st.lists.get? a).getD []

/-- Allocate a fresh list object. -/
def allocList (st : PyState) (l : List Value) : PyState × Addr :=
  ({ st with lists := st.lists ++ [l] }, st.lists.length)

/-- `l[k] = v` on the list object at address `a`. -/
def writeList (st : PyState) (a : Addr) (k : Nat) (v : Value) : PyState :=
  { st with lists := st.lists.set a ((readListD st a).set k v) }

/-- `cls.__cache__.get(_id)` with the weakref already dereferenced (entries
are live, see the header note). -/
def cacheGet (st : PyState) (cls : String) (idv : Value) : Option Addr :=
  getAssoc st.caches (cls, idv)

/-- `self.cache(_id)` (documents.py lines 80-82): store a weak reference to
the instance under `_id` in the class's cache. -/
def cachePut (st : PyState) (cls : String) (idv : Value) (a : Addr) : PyState :=
  { st with caches := putAssoc st.caches (cls, idv) a }

/-- Read a `SelfishField`'s `_value` slot (keyed by the field object's
declaration site). -/
def fvalGet (st : PyState) (declCls name : String) : Option Value :=
  getAssoc st.fvals (declCls, name)

/-- Write a `SelfishField`'s `_value` slot. -/
def fvalPut (st : PyState) (declCls name : String) (v : Value) : PyState :=
  { st with fvals := putAssoc st.fvals (declCls, name) v }

/-- The collection a class reads and writes: `Document.collection()` returns
`{"name": cls.__name__}` (documents.py lines 152-154; the optional
`_collection` override is not exercised by any claim), and `get_collection`
resolves that name. -/
def getColl (st : PyState) (name : String) : Collection :=
  (getAssoc st.colls name).getD ⟨[], 0⟩

/-- Replace a named collection. -/
def setColl (st : PyState) (name : String) (c : Collection) : PyState :=
  { st with colls := putAssoc st.colls name c }

/-- `BaseField.validate` (fields.py lines 46-49): `isinstance` check against
the field's `types` tuple, raising `ValidationError` on mismatch. -/
def fieldValidate (name : String) (f : FieldDecl) (v : Value) :
    Except PyErr Unit :=
  if isinstAny v f.types then .ok ()
  else .error (.validationError (name ++ " must be of types."))

/-- The per-item validation loop of `ListField.__set__` (fields.py lines
127-128): first failure raises. -/
def validateItems (name : String) (f : FieldDecl) : List Value → Except PyErr Unit
  | [] => .ok ()
  | v :: t => (fieldValidate name f v).bind (fun _ => validateItems name f t)

/-- Python attribute lookup on a document instance for an attribute that is
either a plain field descriptor (a data descriptor, so it shadows the
instance dict and reads `inst._data[name]`, raising `KeyError` when unset;
fields.py lines 37-40) or an ordinary instance attribute (`AttributeError`
when absent).  This is what `self.name` in `Document.validate` resolves
through; no class in the source defines a `name` attribute. -/
def getattrPlain (env : ClassEnv) (st : PyState) (a : Addr) (attr : String) :
    Except PyErr Value :=
  let o := getDocD st a
  match getAssoc (fieldsOf env o.cls) attr with
  | some _ =>
    match dGet o.data attr with
    | some v => .ok v
    | none => .error (.keyError attr)
  | none =>
    match dGet o.attrs attr with
    | some v => .ok v
    | none => .error (.attributeError attr)

/-- The aggregation loop of `Document.validate` (documents.py lines 92-95):
every required field whose name is absent from `self.data`. -/
def missingRequired (env : ClassEnv) (cls : String) (d : Dict) : List String :=
  ((fieldsOf env cls).filter
    (fun p => p.2.required && !(dHas d p.1))).map (fun p => p.1)

/-- `Document.validate` (documents.py lines 90-99).  When fields are missing
it evaluates `"{} missing fields: {}".format(self.name, missing_fields)`;
`self.name` goes through ordinary attribute lookup. -/
def docValidate (env : ClassEnv) (st : PyState) (a : Addr) :
    Except PyErr Unit :=
  let o := getDocD st a
  let missing := missingRequired env o.cls o.data
  if missing.isEmpty then .ok ()
  else
    (getattrPlain env st a "name").bind (fun nameVal =>
      .error (.validationError
        (valRepr nameVal ++ " missing fields: " ++
          String.intercalate ", " missing)))

/-- `Document.save` (documents.py lines 101-110).  `get_collection` is the
external handle fetch (no storage write); `col.insert` assigns the fresh
identity `nextId` and stores the document under it; `self._id = ...` goes
through `ObjectIdField.__set__` (the fresh `ObjectId` always passes its
`isinstance` check) and writes `_data["_id"]`; `self.cache(self._id)`
registers the instance; `col.update({"_id": self._id}, self.data)` is a full
replace of the stored document when one with that id exists (pymongo update
without upsert is a no-op otherwise). -/
def save (env : ClassEnv) (st : PyState) (a : Addr) :
    Except PyErr (PyState × Addr) :=
  let o := getDocD st a
  let cname := o.cls
  (docValidate env st a).bind (fun _ =>
    if !(dHas o.data "_id") then
      let col := getColl st cname
      let newIdV := Value.oid col.nextId
      let stored := dSet o.data "_id" newIdV
      let st1 := setColl st cname ⟨col.docs ++ [(newIdV, stored)], col.nextId + 1⟩
      let st2 := updDocData st1 a (fun d => dSet d "_id" newIdV)
      let st3 := cachePut st2 cname newIdV a
      .ok (st3, a)
    else
      match dGet o.data "_id" with
      | some idv =>
        let col := getColl st cname
        let col' : Collection :=
          ⟨col.docs.map (fun p => if p.1 = idv then (p.1, o.data) else p),
            col.nextId⟩
        .ok (setColl st cname col', a)
      | none => .error (.keyError "_id"))

/-- The `Document.ref` property (documents.py lines 55-59): save first when
the instance has no `_id`, then build `DBRef(self._type, self._id)`.
`bson.DBRef` requires its collection argument to be a string and raises
`TypeError` otherwise; both reads go through the field descriptors
(`KeyError` when unset). -/
def docRef (env : ClassEnv) (st : PyState) (a : Addr) :
    Except PyErr (PyState × Value) :=
  let o := getDocD st a
  (if !(dHas o.data "_id") then save env st a else .ok (st, a)).bind
    (fun p =>
      let o' := getDocD p.1 p.2
      match dGet o'.data "_type" with
      | none => .error (.keyError "_type")
      | some tv =>
        match dGet o'.data "_id" with
        | none => .error (.keyError "_id")
        | some idv =>
          match tv with
          | .str t => .ok (p.1, .dbref t idv)
          | _ => .error (.typeError "DBRef collection must be a string"))

/-- `BaseField.to_ref` (fields.py lines 58-63): pass a `DBRef` through
unchanged, otherwise read `value.ref` (only document instances have a `ref`
property; anything else raises `AttributeError`). -/
def to_ref (env : ClassEnv) (st : PyState) (v : Value) :
    Except PyErr (PyState × Value) :=
  match v with
  | .dbref c i => .ok (st, .dbref c i)
  | .docV b => docRef env st b
  | _ => .error (.attributeError "ref")

/-- One field descriptor's `__set__`, by descriptor class:
`BaseField.__set__` (fields.py lines 42-44) validates then writes
`inst._data[name]`; `ObjectIdField` inherits it; `RefField.__set__` (lines
85-86) skips validation and stores `self.to_ref(value)`; `ListField.__set__`
(lines 124-130) requires a list, validates each item, rebinds the field's
`_value` and writes `inst._data[name]`. -/
def fieldSet (env : ClassEnv) (st : PyState) (a : Addr) (name : String)
    (f : FieldDecl) (v : Value) : Except PyErr PyState :=
  match f.kind with
  | .plain =>
    (fieldValidate name f v).bind (fun _ =>
      .ok (updDocData st a (fun d => dSet d name v)))
  | .objectIdK =>
    (fieldValidate name f v).bind (fun _ =>
      .ok (updDocData st a (fun d => dSet d name v)))
  | .refK =>
    (to_ref env st v).bind (fun p =>
      .ok (updDocData p.1 a (fun d => dSet d name p.2)))
  | .listK =>
    match v with
    | .listV la =>
      (validateItems name f (readListD st la)).bind (fun _ =>
        .ok (updDocData (fvalPut st f.declCls name (.listV la)) a
          (fun d => dSet d name (.listV la))))
    | _ => .error (.validationError "Must be a list.")

/-- `setattr(self, name, value)`: dispatch to the field descriptor when the
class declares one under `name`, otherwise set a plain instance attribute. -/
def setattrDoc (env : ClassEnv) (st : PyState) (a : Addr) (name : String)
    (v : Value) : Except PyErr PyState :=
  match getAssoc (fieldsOf env (getDocD st a).cls) name with
  | some f => fieldSet env st a name f v
  | none => .ok (updDocAttrs st a (fun d => dSet d name v))

/-- `copy.copy` on a default value: a list default yields a fresh list object
holding the same element references (shallow); immutable values are returned
unchanged. -/
def shallowCopy (st : PyState) (v : Value) : PyState × Value :=
  match v with
  | .listV a =>
    let p := allocList st (readListD st a)
    (p.1, .listV p.2)
  | v => (st, v)

/-- Materialize one field default (documents.py lines 37-39):
`copy(field.default)` when the default is a value, `field.default()` when it
is callable (the source only ever uses the callable `list`). -/
def materialDefault (st : PyState) : Default → PyState × Value
  | .val v => shallowCopy st v
  | .producerList => let p := allocList st []; (p.1, .listV p.2)

/-- The generated `__init__` (documents.py lines 30-41) together with the
instance allocation: allocate the instance; if `"_id" in kwargs` and that id
is *not* in `self.__cache__`, register the instance (`self.cache`); set
`self._data = {}`; `setattr` every keyword argument in order; then for every
declared field with a non-`None` default, materialize the default and
`setdefault` it into `_data`. -/
def docInit (env : ClassEnv) (st : PyState) (cls : String) (kwargs : Dict) :
    Except PyErr (PyState × Addr) :=
  let a := st.docs.length
  let st0 := { st with docs := st.docs ++ [⟨cls, [], []⟩] }
  let st1 :=
    match dGet kwargs "_id" with
    | some idv =>
      if (cacheGet st cls idv).isNone then cachePut st0 cls idv a else st0
    | none => st0
  (kwargs.foldlM (fun s p => setattrDoc env s a p.1 p.2) st1).bind (fun st2 =>
    .ok ((fieldsOf env cls).foldl
      (fun s p =>
        match p.2.default with
        | none => s
        | some dflt =>
          let q := materialDefault s dflt
          updDocData q.1 a (fun d => dSetdefault d p.1 q.2)) st2, a))

/-- `doc[k]` on a raw stored document (`KeyError` when absent). -/
def dGetE (d : Dict) (k : String) : Except PyErr Value :=
  match dGet d k with
  | some v => .ok v
  | none => .error (.keyError k)

/-- The per-document materialization rule shared verbatim by
`Document.generate_objects` (documents.py lines 117-121) and
`Document.find_one` (lines 140-144): if `doc["_id"]` is in the class's
cache, reuse the cached instance and assign `document.data = doc`
(wholesale replacement of its backing store); otherwise construct
`cls(**doc)`. -/
def materializeOne (env : ClassEnv) (st : PyState) (cls : String) (doc : Dict) :
    Except PyErr (PyState × Addr) :=
  (dGetE doc "_id").bind (fun idv =>
    match cacheGet st cls idv with
    | some a => .ok (setDocData st a doc, a)
    | none => docInit env st cls doc)

/-- `Document.generate_objects` (documents.py lines 112-122), with the lazy
generator run to completion over the cursor's documents. -/
def generate_objects (env : ClassEnv) (st : PyState) (cls : String) :
    List Dict → Except PyErr (PyState × List Addr)
  | [] => .ok (st, [])
  | d :: ds =>
    (materializeOne env st cls d).bind (fun p =>
      (generate_objects env p.1 cls ds).bind (fun q =>
        .ok (q.1, p.2 :: q.2)))

/-- Query matching of the storage collaborator: a document matches a spec
when every spec key is present with an equal value. -/
def specMatches (spec : Dict) (d : Dict) : Bool :=
  spec.all (fun p => decide (dGet d p.1 = some p.2))

/-- `col.find(spec)`: all matching stored documents, in storage order. -/
def colFind (c : Collection) (spec : Dict) : List Dict :=
  (c.docs.map (fun p => p.2)).filter (specMatches spec)

/-- `col.find_one(spec)`: the first match, or `None`. -/
def colFindOne (c : Collection) (spec : Dict) : Option Dict :=
  (colFind c spec).head?

/-- What `Document.find` returns: the raw cursor when decoding is disabled,
otherwise the materialized instances. -/
inductive FindRes where
  | raw (ds : List Dict)
  | decoded (asr : List Addr)
  deriving DecidableEq, Repr

/-- `Document.find` (documents.py lines 124-131). -/
def findDoc (env : ClassEnv) (st : PyState) (cls : String) (decode : Bool)
    (spec : Dict) : Except PyErr (PyState × FindRes) :=
  let ds := colFind (getColl st cls) spec
  if !decode then .ok (st, .raw ds)
  else
    (generate_objects env st cls ds).bind (fun p => .ok (p.1, .decoded p.2))

/-- What `Document.find_one` returns: the raw document (or `None`) when
decoding is disabled, otherwise the materialized instance. -/
inductive FindOneRes where
  | raw (d : Option Dict)
  | decoded (a : Addr)
  deriving DecidableEq, Repr

/-- `Document.find_one` (documents.py lines 133-145).  With decoding enabled
and no match, `col.find_one` returns `None` and the subsequent
`doc["_id"]` subscription raises `TypeError` (the incidental error the
spec's open question calls out). -/
def find_one (env : ClassEnv) (st : PyState) (cls : String) (decode : Bool)
    (spec : Dict) : Except PyErr (PyState × FindOneRes) :=
  let doc? := colFindOne (getColl st cls) spec
  if !decode then .ok (st, .raw doc?)
  else
    match doc? with
    | none => .error (.typeError "NoneType object is unsubscriptable")
    | some doc =>
      (materializeOne env st cls doc).bind (fun p => .ok (p.1, .decoded p.2))

/-- Modelled from the spec: `rget_subclasses` lives in `mongorm/utils.py`,
which is not among the provided sources.  Per the spec's dereference
contract it searches "the requesting type's full subclass tree", so it is
modelled as every class in the environment (other than the class itself)
whose ancestry passes through the class. -/
def rget_subclasses (env : ClassEnv) (cls : String) : List String :=
  (env.classes.filter
    (fun c => c.name ≠ cls ∧ cls ∈ ancestryOf env c.name)).map (fun c => c.name)

/-- The type-resolution loop of `Document.dereference` (documents.py lines
160-164): start from the requesting class; when the stored `_type` differs
from its name, scan the subclass tree and take every name match (the last
match wins, with no early exit). -/
def resolveDocType (env : ClassEnv) (cls : String) (tagv : Value) : String :=
  if tagv = .str cls then cls
  else
    (rget_subclasses env cls).foldl
      (fun acc sub => if tagv = .str sub then sub else acc) cls

/-- `db.dereference(dbref)` of the storage collaborator: fetch the document
with `_id = dbref.id` from the collection named `dbref.collection`, or
`None`. -/
def dbDereference (st : PyState) (coll : String) (idv : Value) : Option Dict :=
  ((getColl st coll).docs.find? (fun p => p.1 = idv)).map (fun p => p.2)

/-- `Document.dereference` (documents.py lines 156-170): fetch the raw
document (subscripting `None` raises `TypeError` when the reference is
dangling), resolve the concrete type from `doc["_type"]`, then apply the
cache-reuse-or-construct rule against the *resolved* type's cache — the
membership test uses `dbref.id` while the lookup uses `doc["_id"]`, exactly
as in the source (`get_cache` returning `None` would make the subsequent
`.data` assignment fail). -/
def dereference (env : ClassEnv) (st : PyState) (cls : String) (ref : Value) :
    Except PyErr (PyState × Addr) :=
  match ref with
  | .dbref coll refId =>
    match dbDereference st coll refId with
    | none => .error (.typeError "NoneType object is unsubscriptable")
    | some doc =>
      (dGetE doc "_type").bind (fun tagv =>
        let dt := resolveDocType env cls tagv
        if (cacheGet st dt refId).isSome then
          (dGetE doc "_id").bind (fun did =>
            match cacheGet st dt did with
            | some a => .ok (setDocData st a doc, a)
            | none => .error (.attributeError "data"))
        else docInit env st dt doc)
  | _ => .error (.typeError "not a DBRef")

/-- `SelfishField.__get__` (fields.py lines 107-110), shared by `ListField`:
rebind the field object's `_value` to this instance's stored value and
return the field object itself as the proxy. -/
def listField_get (env : ClassEnv) (st : PyState) (a : Addr) (name : String) :
    Except PyErr PyState :=
  let o := getDocD st a
  match getAssoc (fieldsOf env o.cls) name with
  | some f =>
    (match dGet o.data name with
     | some v => .ok (fvalPut st f.declCls name v)
     | none => .error (.keyError name))
  | none => .error (.attributeError name)

/-- `ListField.__setitem__` (fields.py lines 135-138): validate the value,
then assign into whatever list object `_value` currently aliases (Python
raises `IndexError` out of range). -/
def listField_setitem (st : PyState) (name : String) (f : FieldDecl) (k : Nat)
    (v : Value) : Except PyErr PyState :=
  (fieldValidate name f v).bind (fun _ =>
    match fvalGet st f.declCls name with
    | some (.listV la) =>
      if k < (readListD st la).length then .ok (writeList st la k v)
      else .error .indexError
    | _ => .error (.typeError "object does not support item assignment"))

/-- The claim scenario for the list-field proxy: read the field on instance
`a`, then on instance `b`, then perform one index assignment through the
proxy (which is the single field object both reads returned). -/
def proxyScenario (env : ClassEnv) (st : PyState) (a b : Addr) (name : String)
    (f : FieldDecl) (k : Nat) (v : Value) : Except PyErr PyState :=
  (listField_get env st a name).bind (fun st1 =>
    (listField_get env st1 b name).bind (fun st2 =>
      listField_setitem st2 name f k v))

/-- The class hierarchy declared in `fields.py` (each class paired with its
base). -/
def fieldClassBases : List (String × String) :=
  [("Field", "BaseField"), ("RefField", "BaseField"),
   ("ObjectIdField", "BaseField"), ("SelfishField", "BaseField"),
   ("ListField", "SelfishField"), ("ListRefField", "ListField"),
   ("DictField", "BaseField"), ("ListDictField", "SelfishField"),
   ("BaseField", "object")]

/-- Reflexive-transitive subclass test over `fieldClassBases` (fuelled;
chains are at most four classes deep). -/
def fieldIsSubF : Nat → String → String → Bool
  | 0, _, _ => false
  | fuel + 1, c, target =>
    c = target ||
      (match getAssoc fieldClassBases c with
       | some b => fieldIsSubF fuel b target
       | none => false)

/-- `issubclass` for the field classes. -/
def fieldIsSub (c target : String) : Bool := fieldIsSubF 10 c target

/-- Python 2's `super(T, self)` check: raises
`TypeError: super(type, obj): obj must be an instance or subtype of type`
unless `self`'s class is `T` or a subclass of it. -/
def superCheck (selfCls target : String) : Except PyErr Unit :=
  if fieldIsSub selfCls target then .ok ()
  else .error (.typeError "super(type, obj): obj must be an instance or subtype of type")

/-- `DictField.__init__` (fields.py lines 185-188): after setting
`kwargs["default"] = dict` and `self.doc_types` it calls
`super(ListRefField, self).__init__(dict, **kwargs)`; the `super` call is
the first operation that can fail, and for `self` of class `DictField` it
always does, so the initializer never completes. -/
def dictFieldInit (selfCls : String) (kwargs : Dict) : Except PyErr Unit :=
  (superCheck selfCls "ListRefField").bind (fun _ => .ok ())

/-- `ListDictField.__init__` (fields.py lines 208-211): after setting
`kwargs["default"] = list` and `self.doc_types` it calls
`super(ListField, self).__init__(dict, **kwargs)`, which fails the same way
for `self` of class `ListDictField`. -/
def listDictFieldInit (selfCls : String) (kwargs : Dict) : Except PyErr Unit :=
  (superCheck selfCls "ListField").bind (fun _ => .ok ())

/-! Concrete class environments used to instantiate the theorems. -/

/-- The root `Document` class (processed by `MetaDocument` like any other, so
it too carries `_type`/`_id` slots). -/
def documentCls : ClassDef := ⟨"Document", none, []⟩

/-- `class User(Document): pass` -/
def envU : ClassEnv := ⟨[documentCls, ⟨"User", some "Document", []⟩]⟩

/-- `class B(Document)`, `class Sub(B)`, `class Other(B)`: a small
polymorphic hierarchy. -/
def envBS : ClassEnv :=
  ⟨[documentCls, ⟨"B", some "Document", []⟩, ⟨"Sub", some "B", []⟩,
    ⟨"Other", some "B", []⟩]⟩

/-- `class Task(Document)` with two required string fields. -/
def envTask : ClassEnv :=
  ⟨[documentCls,
    ⟨"Task", some "Document",
      [("title", mkField "Task" [.tStr] none true),
       ("body", mkField "Task" [.tStr] none true)]⟩]⟩

/-- `class Post(Document)` with `tags = Field(list, default=[[0]])` (the
mutable value default lives at list address 0, its inner list at address 1)
and `items = ListField(int)` (callable default `list`). -/
def envPost : ClassEnv :=
  ⟨[documentCls,
    ⟨"Post", some "Document",
      [("tags", mkField "Post" [.tList] (some (.val (.listV 0))) false),
       ("items", mkListField "Post" [.tInt] false)]⟩]⟩

/-- The initial state for the `Post` examples: the class-body default
`[[0]]` is already allocated (address 0 holding `[listV 1]`, address 1
holding `[0]`), as Python allocates it once when the class body runs. -/
def stPost : PyState := ⟨[], [[.listV 1], [.int 0]], [], [], []⟩

/-- `class Board(Document)` with `items = ListField(int)`. -/
def envBoard : ClassEnv :=
  ⟨[documentCls,
    ⟨"Board", some "Document", [("items", mkListField "Board" [.tInt] false)]⟩]⟩

/-- `class Author(Document)` and `class Book(Document)` with
`author = RefField(Author)`. -/
def envBook : ClassEnv :=
  ⟨[documentCls, ⟨"Author", some "Document", []⟩,
    ⟨"Book", some "Document", [("author", mkRefField "Book" none false)]⟩]⟩

/-- A value as it can occur in a raw document fetched from storage (the wire
carries primitives, `ObjectId`s, `DBRef`s and containers, never live
in-process document instances). -/
def rawValue : Value → Bool
  | .docV _ => false
  | _ => true

/-- A raw stored document: every value is a wire value. -/
def rawDict (d : Dict) : Bool := d.all (fun p => rawValue p.2)

/-- Well-formedness of the identity caches: every cached instance address is
a real heap address. -/
def cacheWF (st : PyState) : Bool :=
  st.caches.all (fun p => p.2 < st.docs.length)

/-- The Python expression `inst.tags[0][0]`: `tags` is a plain field (its
`__get__` returns the raw stored value), followed by two list
subscriptions. -/
def readTags00 (st : PyState) (a : Addr) : Value :=
  match dGet (getDocD st a).data "tags" with
  | some (.listV la) =>
    match (readListD st la).get? 0 with
    | some (.listV lb) => ((readListD st lb).get? 0).getD .pyNone
    | _ => .pyNone
  | _ => .pyNone

/-- The Python statement `inst.tags[0][0] = v`. -/
def mutateTags00 (st : PyState) (a : Addr) (v : Value) : PyState :=
  match dGet (getDocD st a).data "tags" with
  | some (.listV la) =>
    match (readListD st la).get? 0 with
    | some (.listV lb) => writeList st lb 0 v
    | _ => st
  | _ => st

/-- State for the C4 example: one live `User` instance (address 0) whose
identity `ObjectId(5)` is registered in `User.__cache__`. -/
def c4St : PyState :=
  ⟨[⟨"User", [("_id", .oid 5)], []⟩], [], [(("User", .oid 5), 0)], [], []⟩

/-- Keyword arguments of the C4 example: a raw document carrying the already
cached identity. -/
def c4Kwargs : Dict := [("_id", .oid 5), ("_type", .str "User")]

/-- State for the C6 example: one `Task` instance (address 0) whose backing
store carries only the defaulted `_type`, so both required fields are
missing. -/
def c6St : PyState := ⟨[⟨"Task", [("_type", .str "Task")], []⟩], [], [], [], []⟩

/-- State for the C8 example: no stored documents at all. -/
def c8St : PyState := ⟨[], [], [], [], []⟩

/-- State for the C10 witness: two `Board` instances (addresses 0 and 1)
whose `items` fields hold distinct list objects (addresses 0 and 1 of the
list heap). -/
def c10St : PyState :=
  ⟨[⟨"Board", [("_type", .str "Board"), ("items", .listV 0)], []⟩,
    ⟨"Board", [("_type", .str "Board"), ("items", .listV 1)], []⟩],
   [[.int 10, .int 11], [.int 20, .int 21]], [], [], []⟩

/-- The `items = ListField(int)` declaration of `Board`. -/
def boardItems : FieldDecl := mkListField "Board" [.tInt] false

/-- State for the C7 witness: a `Book` instance (address 0) and a never-saved
`Author` instance (address 1). -/
def c7St : PyState :=
  ⟨[⟨"Book", [("_type", .str "Book")], []⟩,
    ⟨"Author", [("_type", .str "Author")], []⟩], [], [], [], []⟩

/-- State for the C7 witness, second part: the `Author` instance already has
an identity. -/
def c7StSaved : PyState :=
  ⟨[⟨"Book", [("_type", .str "Book")], []⟩,
    ⟨"Author", [("_type", .str "Author"), ("_id", .oid 3)], []⟩], [], [], [], []⟩

/-- Raw stored documents for the C1 witness: two fetches of the same stored
identity. -/
def c1Doc1 : Dict := [("_id", .oid 1), ("_type", .str "User")]

/-- Second fetch of the same identity with fresh field values. -/
def c1Doc2 : Dict := [("_id", .oid 1), ("_type", .str "User"), ("x", .int 3)]

/-- State for the C2 witness: the collection `Sub` stores one document with
type tag `"Sub"` under `ObjectId(7)`. -/
def c2St : PyState :=
  ⟨[], [], [], [],
   [("Sub", ⟨[(.oid 7, [("_id", .oid 7), ("_type", .str "Sub")])], 8⟩)]⟩

/-- State for the C3 witness: one valid, never-saved `Task` instance. -/
def c3St : PyState :=
  ⟨[⟨"Task", [("_type", .str "Task"), ("title", .str "t"), ("body", .str "b")], []⟩],
   [], [], [], []⟩

/-- State for the C3 witness, update path: the same instance already
persisted under `ObjectId(0)`. -/
def c3StSaved : PyState :=
  ⟨[⟨"Task",
     [("_type", .str "Task"), ("title", .str "t2"), ("body", .str "b"),
      ("_id", .oid 0)], []⟩],
   [], [], [],
   [("Task", ⟨[(.oid 0, [("_type", .str "Task"), ("title", .str "t"),
                         ("body", .str "b"), ("_id", .oid 0)])], 1⟩)]⟩

/-- Decidable equality for `Except`, so concrete runs can be checked by
`decide`. -/
instance {e a : Type} [DecidableEq e] [DecidableEq a] :
    DecidableEq (Except e a) := fun x y =>
  match x, y with
  | .error u, .error v =>
    if h : u = v then isTrue (by rw [h]) else
      isFalse (fun hc => h (by cases hc; rfl))
  | .ok u, .ok v =>
    if h : u = v then isTrue (by rw [h]) else
      isFalse (fun hc => h (by cases hc; rfl))
  | .error _, .ok _ => isFalse (fun hc => Except.noConfusion hc)
  | .ok _, .error _ => isFalse (fun hc => Except.noConfusion hc)

/-- The state after the first C1 load: a fresh `User` instance at address 0,
registered in the cache under `ObjectId(1)`. -/
def c1St1 : PyState :=
  ⟨[⟨"User", [("_id", .oid 1), ("_type", .str "User")], []⟩], [],
   [(("User", .oid 1), 0)], [], []⟩

/-- The state after the second C1 load: the same instance, its backing store
replaced wholesale by the second raw document. -/
def c1St2 : PyState :=
  ⟨[⟨"User", [("_id", .oid 1), ("_type", .str "User"), ("x", .int 3)], []⟩], [],
   [(("User", .oid 1), 0)], [], []⟩

/-- The raw stored document of the C2 witness. -/
def c2Doc : Dict := [("_id", .oid 7), ("_type", .str "Sub")]

/-- The state after the C4 construction: the new instance sits at address 1
while the cache entry for `ObjectId(5)` still points at the old instance at
address 0. -/
def c4StAfter : PyState :=
  ⟨[⟨"User", [("_id", .oid 5)], []⟩,
    ⟨"User", [("_id", .oid 5), ("_type", .str "User")], []⟩], [],
   [(("User", .oid 5), 0)], [], []⟩

/-! Helper lemmas about the heap, dictionaries and caches. -/

theorem lget_concat {α : Type} (l : List α) (x : α) :
    (l ++ [x]).get? l.length = some x := List.get?_concat_length l x

theorem lget_append_lt {α : Type} (l t : List α) (i : Nat) (h : i < l.length) :
    (l ++ t).get? i = l.get? i := by
  rw [List.get?_eq_getElem?, List.get?_eq_getElem?]
  exact List.getElem?_append_left h

theorem lget_set_self {α : Type} (l : List α) (i : Nat) (x : α)
    (h : i < l.length) : (l.set i x).get? i = some x :=
  List.get?_set_eq_of_lt x h

theorem lget_set_ne {α : Type} (l : List α) (i j : Nat) (x : α) (h : i ≠ j) :
    (l.set i x).get? j = l.get? j := List.get?_set_ne x l h

theorem lget_set_oob {α : Type} (l : List α) (i : Nat) (x : α)
    (h : l.length ≤ i) : l.set i x = l := List.set_eq_of_length_le h

theorem getAssoc_put_self {α β : Type} [DecidableEq α]
    (l : List (α × β)) (k : α) (v : β) :
    getAssoc (putAssoc l k v) k = some v := by
  induction l with
  | nil => simp [putAssoc, getAssoc]
  | cons p t ih =>
    by_cases h : p.1 = k
    · simp only [putAssoc, h, if_pos rfl]
      simp [getAssoc]
    · simp only [putAssoc, if_neg h]
      simp [getAssoc, h, ih]

theorem getAssoc_put_ne {α β : Type} [DecidableEq α]
    (l : List (α × β)) (k k' : α) (v : β) (h : k' ≠ k) :
    getAssoc (putAssoc l k v) k' = getAssoc l k' := by
  induction l with
  | nil => simp [putAssoc, getAssoc, Ne.symm h]
  | cons p t ih =>
    by_cases hp : p.1 = k
    · subst hp
      simp only [putAssoc, if_pos rfl]
      simp [getAssoc, Ne.symm h]
    · simp only [putAssoc, if_neg hp]
      simp only [getAssoc]
      by_cases hp' : p.1 = k'
      · simp [hp']
      · simp [hp', ih]

theorem dGet_dSet_self (d : Dict) (k : String) (v : Value) :
    dGet (dSet d k v) k = some v := getAssoc_put_self d k v

theorem dGet_dSet_ne (d : Dict) (k k' : String) (v : Value) (h : k' ≠ k) :
    dGet (dSet d k v) k' = dGet d k' := getAssoc_put_ne d k k' v h

theorem getDocD_setDocData_self (st : PyState) (a : Addr) (d : Dict)
    (h : a < st.docs.length) :
    getDocD (setDocData st a d) a = { getDocD st a with data := d } := by
  show ((st.docs.set a _).get? a).getD _ = _
  rw [lget_set_self _ _ _ h]
  rfl

theorem getDocD_setDocData_ne (st : PyState) (a b : Addr) (d : Dict)
    (h : a ≠ b) : getDocD (setDocData st a d) b = getDocD st b := by
  show ((st.docs.set a _).get? b).getD _ = _
  rw [lget_set_ne _ _ _ _ h]
  rfl

theorem setDocData_len (st : PyState) (a : Addr) (d : Dict) :
    (setDocData st a d).docs.length = st.docs.length := by
  show (st.docs.set a _).length = _
  exact List.length_set st.docs a _

theorem getDocD_cls_setDocData (st : PyState) (a b : Addr) (d : Dict) :
    (getDocD (setDocData st a d) b).cls = (getDocD st b).cls := by
  by_cases hab : a = b
  · subst hab
    by_cases hl : a < st.docs.length
    · rw [getDocD_setDocData_self st a d hl]
    · show (((st.docs.set a _).get? a).getD _).cls = _
      rw [lget_set_oob _ _ _ (le_of_not_lt hl)]
      rfl
  · rw [getDocD_setDocData_ne st a b d hab]

theorem getDocD_updDocAttrs_ne (st : PyState) (a b : Addr) (f : Dict → Dict)
    (h : a ≠ b) : getDocD (updDocAttrs st a f) b = getDocD st b := by
  show ((st.docs.set a _).get? b).getD _ = _
  rw [lget_set_ne _ _ _ _ h]
  rfl

theorem getDocD_cls_updDocAttrs (st : PyState) (a b : Addr) (f : Dict → Dict) :
    (getDocD (updDocAttrs st a f) b).cls = (getDocD st b).cls := by
  by_cases hab : a = b
  · subst hab
    by_cases hl : a < st.docs.length
    · show (((st.docs.set a _).get? a).getD _).cls = _
      rw [lget_set_self _ _ _ hl]
      rfl
    · show (((st.docs.set a _).get? a).getD _).cls = _
      rw [lget_set_oob _ _ _ (le_of_not_lt hl)]
      rfl
  · rw [getDocD_updDocAttrs_ne st a b f hab]

theorem updDocAttrs_len (st : PyState) (a : Addr) (f : Dict → Dict) :
    (updDocAttrs st a f).docs.length = st.docs.length := by
  show (st.docs.set a _).length = _
  exact List.length_set st.docs a _

theorem ebind_ok {ε α β : Type} (a : α) (f : α → Except ε β) :
    (Except.ok a : Except ε α).bind f = f a := rfl

theorem ebind_err {ε α β : Type} (e : ε) (f : α → Except ε β) :
    (Except.error e : Except ε α).bind f = .error e := rfl

/-- The state components that `__init__`'s keyword loop and default loop
leave intact: the identity caches, the instance count, and every instance's
concrete class. -/
def PreservesCore (st st' : PyState) : Prop :=
  st'.caches = st.caches ∧ st'.docs.length = st.docs.length ∧
    ∀ b, (getDocD st' b).cls = (getDocD st b).cls

theorem presCore_refl (st : PyState) : PreservesCore st st :=
  ⟨rfl, rfl, fun _ => rfl⟩

theorem presCore_trans {s1 s2 s3 : PyState}
    (h12 : PreservesCore s1 s2) (h23 : PreservesCore s2 s3) :
    PreservesCore s1 s3 :=
  ⟨h23.1.trans h12.1, h23.2.1.trans h12.2.1,
   fun b => (h23.2.2 b).trans (h12.2.2 b)⟩

theorem presCore_setDocData (st : PyState) (a : Addr) (d : Dict) :
    PreservesCore st (setDocData st a d) :=
  ⟨rfl, setDocData_len st a d, fun b => getDocD_cls_setDocData st a b d⟩

theorem presCore_updDocData (st : PyState) (a : Addr) (f : Dict → Dict) :
    PreservesCore st (updDocData st a f) :=
  presCore_setDocData st a _

theorem presCore_updDocAttrs (st : PyState) (a : Addr) (f : Dict → Dict) :
    PreservesCore st (updDocAttrs st a f) :=
  ⟨rfl, updDocAttrs_len st a f, fun b => getDocD_cls_updDocAttrs st a b f⟩

theorem presCore_fvalPut (st : PyState) (c n : String) (v : Value) :
    PreservesCore st (fvalPut st c n v) :=
  ⟨rfl, rfl, fun _ => rfl⟩

theorem presCore_matDefault (st : PyState) (d : Default) :
    PreservesCore st (materialDefault st d).1 := by
  cases d with
  | val v => cases v <;> exact ⟨rfl, rfl, fun _ => rfl⟩
  | producerList => exact ⟨rfl, rfl, fun _ => rfl⟩

theorem fieldSet_pres (env : ClassEnv) (st st' : PyState) (a : Addr)
    (n : String) (f : FieldDecl) (v : Value) (hraw : rawValue v = true)
    (h : fieldSet env st a n f v = .ok st') : PreservesCore st st' := by
  obtain ⟨kd, tys, df, rq, dc⟩ := f
  cases kd with
  | plain =>
    simp only [fieldSet] at h
    cases hv : fieldValidate n ⟨.plain, tys, df, rq, dc⟩ v with
    | error e => rw [hv, ebind_err] at h; exact absurd h (by simp)
    | ok u =>
      rw [hv, ebind_ok] at h
      cases h
      exact presCore_updDocData st a _
  | objectIdK =>
    simp only [fieldSet] at h
    cases hv : fieldValidate n ⟨.objectIdK, tys, df, rq, dc⟩ v with
    | error e => rw [hv, ebind_err] at h; exact absurd h (by simp)
    | ok u =>
      rw [hv, ebind_ok] at h
      cases h
      exact presCore_updDocData st a _
  | refK =>
    simp only [fieldSet] at h
    cases v with
    | dbref c i =>
      rw [show to_ref env st (.dbref c i) = .ok (st, .dbref c i) from rfl,
          ebind_ok] at h
      cases h
      exact presCore_updDocData st a _
    | docV b => exact absurd hraw (by simp [rawValue])
    | pyNone => exact absurd h (by simp [to_ref, ebind_err])
    | int i => exact absurd h (by simp [to_ref, ebind_err])
    | str s => exact absurd h (by simp [to_ref, ebind_err])
    | boolV b => exact absurd h (by simp [to_ref, ebind_err])
    | oid i => exact absurd h (by simp [to_ref, ebind_err])
    | listV la => exact absurd h (by simp [to_ref, ebind_err])
  | listK =>
    cases v with
    | listV la =>
      simp only [fieldSet] at h
      cases hv : validateItems n ⟨.listK, tys, df, rq, dc⟩ (readListD st la) with
      | error e => rw [hv, ebind_err] at h; exact absurd h (by simp)
      | ok u =>
        rw [hv, ebind_ok] at h
        cases h
        exact presCore_trans (presCore_fvalPut st dc n _)
          (presCore_updDocData _ a _)
    | pyNone => exact absurd h (by simp [fieldSet])
    | int i => exact absurd h (by simp [fieldSet])
    | str s => exact absurd h (by simp [fieldSet])
    | boolV b => exact absurd h (by simp [fieldSet])
    | oid i => exact absurd h (by simp [fieldSet])
    | dbref c i => exact absurd h (by simp [fieldSet])
    | docV b => exact absurd h (by simp [fieldSet])

theorem setattrDoc_pres (env : ClassEnv) (st st' : PyState) (a : Addr)
    (n : String) (v : Value) (hraw : rawValue v = true)
    (h : setattrDoc env st a n v = .ok st') : PreservesCore st st' := by
  rw [setattrDoc] at h
  cases hg : getAssoc (fieldsOf env (getDocD st a).cls) n with
  | some f => rw [hg] at h; exact fieldSet_pres env st st' a n f v hraw h
  | none => rw [hg] at h
            cases h
            exact presCore_updDocAttrs st a _

theorem foldSetattr_pres (env : ClassEnv) (a : Addr) :
    ∀ (kws : Dict) (st st' : PyState), rawDict kws = true →
      List.foldlM (fun s p => setattrDoc env s a p.1 p.2) st kws = .ok st' →
      PreservesCore st st' := by
  intro kws
  induction kws with
  | nil =>
    intro st st' _ h
    rw [List.foldlM_nil] at h
    cases h
    exact presCore_refl st
  | cons p t ih =>
    intro st st' hraw h
    rw [List.foldlM_cons] at h
    have hraw1 : rawValue p.2 = true := by
      simp [rawDict, List.all_cons] at hraw; exact hraw.1
    have hrawt : rawDict t = true := by
      simp [rawDict, List.all_cons] at hraw
      simp [rawDict]; exact hraw.2
    cases hs : setattrDoc env st a p.1 p.2 with
    | error e =>
      rw [hs] at h
      exact absurd h (by simp [Bind.bind, ebind_err])
    | ok s1 =>
      rw [hs] at h
      have h' : List.foldlM (fun s q => setattrDoc env s a q.1 q.2) s1 t = .ok st' := h
      exact presCore_trans (setattrDoc_pres env st s1 a p.1 p.2 hraw1 hs)
        (ih s1 st' hrawt h')

theorem defaultsFold_pres (a : Addr) :
    ∀ (fls : List (String × FieldDecl)) (st : PyState),
      PreservesCore st (fls.foldl
        (fun s p =>
          match p.2.default with
          | none => s
          | some dflt =>
            let q := materialDefault s dflt
            updDocData q.1 a (fun d => dSetdefault d p.1 q.2)) st) := by
  intro fls
  induction fls with
  | nil => intro st; exact presCore_refl st
  | cons p t ih =>
    intro st
    rw [List.foldl_cons]
    refine presCore_trans ?_ (ih _)
    cases p.2.default with
    | none => exact presCore_refl st
    | some dflt =>
      exact presCore_trans (presCore_matDefault st dflt)
        (presCore_updDocData _ a _)

theorem ebind_ok_iff {ε α β : Type} (x : Except ε α) (f : α → Except ε β)
    (b : β) : x.bind f = .ok b ↔ ∃ a, x = .ok a ∧ f a = .ok b := by
  cases x with
  | error e => simp [Except.bind]
  | ok a => simp [Except.bind]

/-- What a successful construction guarantees about the instance heap and
the identity cache: the fresh instance sits at the next heap address, it is
of the requested class, and the cache gained exactly the registration
`__init__` performs (under the supplied `_id`, only when that id was not
already cached). -/
theorem docInit_spec (env : ClassEnv) (st st' : PyState) (cls : String)
    (kw : Dict) (a : Addr) (hraw : rawDict kw = true)
    (h : docInit env st cls kw = .ok (st', a)) :
    a = st.docs.length ∧ st'.docs.length = st.docs.length + 1 ∧
    (getDocD st' a).cls = cls ∧
    st'.caches =
      (match dGet kw "_id" with
       | some idv =>
         if (cacheGet st cls idv).isNone then
           putAssoc st.caches (cls, idv) st.docs.length
         else st.caches
       | none => st.caches) := by
  have main : ∀ st1 : PyState,
      st1.docs = st.docs ++ [⟨cls, [], []⟩] →
      ∀ st2 : PyState,
        List.foldlM (fun s p => setattrDoc env s st.docs.length p.1 p.2) st1 kw
          = .ok st2 →
        ∀ stf : PyState,
          stf = (fieldsOf env cls).foldl
            (fun s p =>
              match p.2.default with
              | none => s
              | some dflt =>
                let q := materialDefault s dflt
                updDocData q.1 st.docs.length (fun d => dSetdefault d p.1 q.2)) st2 →
          stf.docs.length = st.docs.length + 1 ∧
          (getDocD stf st.docs.length).cls = cls ∧ stf.caches = st1.caches := by
    intro st1 hdocs st2 hf stf hstf
    have p1 : PreservesCore st1 st2 :=
      foldSetattr_pres env st.docs.length kw st1 st2 hraw hf
    have p2 : PreservesCore st2 stf := hstf ▸ defaultsFold_pres st.docs.length _ st2
    have p12 : PreservesCore st1 stf := presCore_trans p1 p2
    refine ⟨?_, ?_, p12.1⟩
    · rw [p12.2.1, hdocs]
      simp
    · rw [p12.2.2 st.docs.length]
      show ((st1.docs.get? st.docs.length).getD _).cls = cls
      rw [hdocs, lget_concat]
      rfl
  cases hk : dGet kw "_id" with
  | none =>
    simp only [docInit, hk] at h
    rw [ebind_ok_iff] at h
    obtain ⟨st2, hf, hg⟩ := h
    simp only [Except.ok.injEq, Prod.mk.injEq] at hg
    obtain ⟨h1, h2⟩ := hg
    subst h2
    obtain ⟨q1, q2, q3⟩ := main _ rfl st2 hf st' h1.symm
    exact ⟨rfl, q1, q2, q3⟩
  | some idv =>
    cases hc : cacheGet st cls idv with
    | none =>
      simp only [docInit, hk, hc, Option.isNone_none, if_true] at h
      rw [ebind_ok_iff] at h
      obtain ⟨st2, hf, hg⟩ := h
      simp only [Except.ok.injEq, Prod.mk.injEq] at hg
      obtain ⟨h1, h2⟩ := hg
      subst h2
      obtain ⟨q1, q2, q3⟩ := main _ rfl st2 hf st' h1.symm
      refine ⟨rfl, q1, q2, ?_⟩
      rw [q3]
      simp [cachePut, hc]
    | some a0 =>
      simp only [docInit, hk, hc, Option.isNone_some, if_false] at h
      rw [ebind_ok_iff] at h
      obtain ⟨st2, hf, hg⟩ := h
      simp only [Except.ok.injEq, Prod.mk.injEq] at hg
      obtain ⟨h1, h2⟩ := hg
      subst h2
      obtain ⟨q1, q2, q3⟩ := main _ rfl st2 hf st' h1.symm
      refine ⟨rfl, q1, q2, ?_⟩
      rw [q3]
      simp [hc]

theorem getAssoc_mem {α β : Type} [DecidableEq α] (l : List (α × β)) (k : α)
    (v : β) (h : getAssoc l k = some v) : (k, v) ∈ l := by
  induction l with
  | nil => exact absurd h (by simp [getAssoc])
  | cons p t ih =>
    by_cases hp : p.1 = k
    · subst hp
      rw [getAssoc, if_pos rfl] at h
      cases h
      exact List.mem_cons_self p t
    · rw [getAssoc, if_neg hp] at h
      exact List.mem_cons_of_mem p (ih h)

theorem cacheWF_lt (st : PyState) (cls : String) (idv : Value) (a : Addr)
    (hwf : cacheWF st = true) (h : cacheGet st cls idv = some a) :
    a < st.docs.length := by
  have hm := getAssoc_mem st.caches (cls, idv) a h
  simp only [cacheWF, List.all_eq_true, decide_eq_true_eq] at hwf
  exact hwf _ hm

/-- Claim C1: in `find`/`find_one` materialization (decoding enabled), a raw
document whose identity is in the identity cache is rebound onto the cached
instance (its backing store replaced wholesale, so every holder of that
instance observes the update), while an uncached identity produces a new
instance of the requesting type; consequently two loads of documents sharing
one stored identity, while the instance stays strongly referenced (modelled
by its cache entry being live), return the same instance — reference
equality of heap addresses — and both `generate_objects` (the decoder behind
`find`) and `find_one` materialize through exactly this rule. -/
theorem c1_find_identity_reuse
    (env : ClassEnv) (st : PyState) (cls : String) (d1 d2 : Dict) (idv : Value)
    (st1 st2 : PyState) (a1 a2 : Addr)
    (h1 : dGet d1 "_id" = some idv) (h2 : dGet d2 "_id" = some idv)
    (hraw1 : rawDict d1 = true) (hwf : cacheWF st = true)
    (hm1 : materializeOne env st cls d1 = .ok (st1, a1))
    (hm2 : materializeOne env st1 cls d2 = .ok (st2, a2)) :
    (∀ a, cacheGet st cls idv = some a → a1 = a ∧ st1 = setDocData st a d1) ∧
    (cacheGet st cls idv = none →
      a1 = st.docs.length ∧ (getDocD st1 a1).cls = cls) ∧
    a2 = a1 ∧ (getDocD st2 a1).data = d2 ∧
    (∀ ds, generate_objects env st cls (d1 :: ds) =
      (materializeOne env st cls d1).bind (fun p =>
        (generate_objects env p.1 cls ds).bind (fun q => .ok (q.1, p.2 :: q.2)))) ∧
    (∀ spec, colFindOne (getColl st cls) spec = some d1 →
      find_one env st cls true spec =
        (materializeOne env st cls d1).bind (fun p => .ok (p.1, .decoded p.2))) := by
  have hgen : ∀ ds, generate_objects env st cls (d1 :: ds) =
      (materializeOne env st cls d1).bind (fun p =>
        (generate_objects env p.1 cls ds).bind (fun q => .ok (q.1, p.2 :: q.2))) :=
    fun _ => rfl
  have hfo : ∀ spec, colFindOne (getColl st cls) spec = some d1 →
      find_one env st cls true spec =
        (materializeOne env st cls d1).bind (fun p => .ok (p.1, .decoded p.2)) := by
    intro spec hsp
    simp [find_one, hsp]
  cases hc : cacheGet st cls idv with
  | some a =>
    simp only [materializeOne, dGetE, h1, ebind_ok, hc] at hm1
    simp only [Except.ok.injEq, Prod.mk.injEq] at hm1
    obtain ⟨hst1, ha1⟩ := hm1
    have hcg1 : cacheGet st1 cls idv = some a := by rw [← hst1]; exact hc
    simp only [materializeOne, dGetE, h2, ebind_ok, hcg1] at hm2
    simp only [Except.ok.injEq, Prod.mk.injEq] at hm2
    obtain ⟨hst2, ha2⟩ := hm2
    have hlt : a < st.docs.length := cacheWF_lt st cls idv a hwf hc
    have hlt1 : a < st1.docs.length := by
      rw [← hst1, setDocData_len]; exact hlt
    refine ⟨fun a' ha' => ⟨by rw [← ha1]; injection ha',
        by rw [← hst1]; injection ha' with hh; rw [hh]⟩,
      fun hn => by exact absurd hn (by simp), ?_, ?_, hgen, hfo⟩
    · rw [← ha2, ← ha1]
    · rw [← ha1, ← hst2, getDocD_setDocData_self st1 a d2 hlt1]
  | none =>
    simp only [materializeOne, dGetE, h1, ebind_ok, hc] at hm1
    obtain ⟨q1, q2, q3, q4⟩ :=
      docInit_spec env st st1 cls d1 a1 hraw1 hm1
    simp only [h1, hc, Option.isNone_none, if_true] at q4
    have hcg1 : cacheGet st1 cls idv = some a1 := by
      show getAssoc st1.caches (cls, idv) = some a1
      rw [q4, q1]
      exact getAssoc_put_self st.caches (cls, idv) st.docs.length
    simp only [materializeOne, dGetE, h2, ebind_ok, hcg1] at hm2
    simp only [Except.ok.injEq, Prod.mk.injEq] at hm2
    obtain ⟨hst2, ha2⟩ := hm2
    have hlt1 : a1 < st1.docs.length := by
      rw [q2, q1]
      exact Nat.lt_succ_self _
    refine ⟨fun a' ha' => by exact absurd ha' (by simp),
      fun _ => ⟨q1, q3⟩, ha2.symm, ?_, hgen, hfo⟩
    rw [← hst2, getDocD_setDocData_self st1 a1 d2 hlt1]

/-- Claim C1 witness: the theorem applied to a concrete pair of loads of the
stored identity `ObjectId(1)` on an initially empty cache. -/
theorem c1_find_identity_reuse_witness :
    (dGet c1Doc1 "_id" = some (.oid 1) ∧ dGet c1Doc2 "_id" = some (.oid 1) ∧
     rawDict c1Doc1 = true ∧ cacheWF c8St = true ∧
     materializeOne envU c8St "User" c1Doc1 = .ok (c1St1, 0) ∧
     materializeOne envU c1St1 "User" c1Doc2 = .ok (c1St2, 0)) ∧
    ((∀ a, cacheGet c8St "User" (.oid 1) = some a →
        0 = a ∧ c1St1 = setDocData c8St a c1Doc1) ∧
     (cacheGet c8St "User" (.oid 1) = none →
        0 = c8St.docs.length ∧ (getDocD c1St1 0).cls = "User") ∧
     (0 : Addr) = 0 ∧ (getDocD c1St2 0).data = c1Doc2 ∧
     (∀ ds, generate_objects envU c8St "User" (c1Doc1 :: ds) =
       (materializeOne envU c8St "User" c1Doc1).bind (fun p =>
         (generate_objects envU p.1 "User" ds).bind
           (fun q => .ok (q.1, p.2 :: q.2)))) ∧
     (∀ spec, colFindOne (getColl c8St "User") spec = some c1Doc1 →
       find_one envU c8St "User" true spec =
         (materializeOne envU c8St "User" c1Doc1).bind
           (fun p => .ok (p.1, .decoded p.2)))) :=
  ⟨⟨by decide, by decide, by decide, by decide, by decide, by decide⟩,
   c1_find_identity_reuse envU c8St "User" c1Doc1 c1Doc2 (.oid 1) c1St1 c1St2 0 0
     (by decide) (by decide) (by decide) (by decide) (by decide) (by decide)⟩

theorem foldPickNone (t : String) :
    ∀ (l : List String) (acc : String), (∀ s ∈ l, s ≠ t) →
      l.foldl (fun a s => if Value.str t = Value.str s then s else a) acc = acc := by
  intro l
  induction l with
  | nil => intro acc _; rfl
  | cons s rest ih =>
    intro acc hno
    rw [List.foldl_cons]
    have hst : ¬(Value.str t = Value.str s) := by
      intro hc
      exact hno s (List.mem_cons_self s rest) (by injection hc with h; exact h.symm)
    rw [if_neg hst]
    exact ih acc (fun x hx => hno x (List.mem_cons_of_mem s hx))

theorem foldPickMem (t : String) :
    ∀ (l : List String) (acc : String), t ∈ l → l.Nodup →
      l.foldl (fun a s => if Value.str t = Value.str s then s else a) acc = t := by
  intro l
  induction l with
  | nil => intro acc h _; exact absurd h (by simp)
  | cons s rest ih =>
    intro acc hmem hnd
    rw [List.foldl_cons]
    by_cases hts : t = s
    · subst hts
      rw [if_pos rfl]
      exact foldPickNone t rest t
        (fun x hx hxt => (List.nodup_cons.1 hnd).1 (hxt ▸ hx))
    · rw [if_neg (fun hc => hts (by injection hc))]
      rcases List.mem_cons.1 hmem with h | h
      · exact absurd h hts
      · exact ih acc h (List.nodup_cons.1 hnd).2

/-- Claim C2: dereferencing through a requesting type resolves the concrete
type from the stored type tag — the requesting type itself when the tag
equals its name, otherwise the unique name match in the requesting type's
subclass tree (`rget_subclasses`, modelled from the spec), falling back to
the requesting type when nothing matches — and then applies the same
cache-reuse-or-construct rule as `find` against the resolved type, so
dereferencing a document tagged `"Sub"` through base `B` yields an instance
whose concrete class is `Sub`. -/
theorem c2_polymorphic_dereference
    (env : ClassEnv) (st : PyState) (cls t coll : String) (refId : Value)
    (doc : Dict) :
    resolveDocType env cls (.str cls) = cls ∧
    ((rget_subclasses env cls).Nodup → t ∈ rget_subclasses env cls →
      resolveDocType env cls (.str t) = t) ∧
    (t ∉ rget_subclasses env cls → resolveDocType env cls (.str t) = cls) ∧
    (dbDereference st coll refId = some doc →
      dGet doc "_type" = some (.str t) →
      (rget_subclasses env cls).Nodup → t ∈ rget_subclasses env cls →
      cacheGet st t refId = none →
      dereference env st cls (.dbref coll refId) = docInit env st t doc ∧
      (rawDict doc = true → ∀ st' a, docInit env st t doc = .ok (st', a) →
        (getDocD st' a).cls = t)) ∧
    (∀ ac, dbDereference st coll refId = some doc →
      dGet doc "_type" = some (.str t) →
      (rget_subclasses env cls).Nodup → t ∈ rget_subclasses env cls →
      cacheGet st t refId = some ac → dGet doc "_id" = some refId →
      dereference env st cls (.dbref coll refId) =
        .ok (setDocData st ac doc, ac)) := by
  have hres : ∀ (hnd : (rget_subclasses env cls).Nodup)
      (hmem : t ∈ rget_subclasses env cls),
      resolveDocType env cls (.str t) = t := by
    intro hnd hmem
    rw [resolveDocType]
    by_cases hteq : (Value.str t : Value) = .str cls
    · rw [if_pos hteq]; injection hteq with h; rw [h]
    · rw [if_neg hteq]
      exact foldPickMem t (rget_subclasses env cls) cls hmem hnd
  refine ⟨by simp [resolveDocType], hres, ?_, ?_, ?_⟩
  · intro hno
    rw [resolveDocType]
    by_cases hteq : (Value.str t : Value) = .str cls
    · rw [if_pos hteq]
    · rw [if_neg hteq]
      exact foldPickNone t (rget_subclasses env cls) cls
        (fun s hs hst => hno (hst ▸ hs))
  · intro hdb htag hnd hmem hmiss
    constructor
    · simp only [dereference, hdb, dGetE, htag, ebind_ok, hres hnd hmem, hmiss,
        Option.isSome_none, Bool.false_eq_true, if_false]
    · intro hraw st' a hrun
      exact (docInit_spec env st st' t doc a hraw hrun).2.2.1
  · intro ac hdb htag hnd hmem hhit hid
    simp only [dereference, hdb, dGetE, htag, ebind_ok, hres hnd hmem, hhit,
      Option.isSome_some, if_true, hid]

/-- Claim C2 witness: dereferencing `DBRef("Sub", ObjectId(7))` through the
base class `B` constructs an instance whose concrete class is `Sub`, not
`B`. -/
theorem c2_polymorphic_dereference_witness :
    (dbDereference c2St "Sub" (.oid 7) = some c2Doc ∧
     dGet c2Doc "_type" = some (.str "Sub") ∧
     (rget_subclasses envBS "B").Nodup ∧
     "Sub" ∈ rget_subclasses envBS "B" ∧
     cacheGet c2St "Sub" (.oid 7) = none ∧ rawDict c2Doc = true) ∧
    dereference envBS c2St "B" (.dbref "Sub" (.oid 7)) =
      docInit envBS c2St "Sub" c2Doc ∧
    (∀ st' a, docInit envBS c2St "Sub" c2Doc = .ok (st', a) →
      (getDocD st' a).cls = "Sub") := by
  have hnd : (rget_subclasses envBS "B").Nodup := by
    simp [rget_subclasses, envBS, documentCls, ancestryOf, ancestryF, findClass]
  have h := (c2_polymorphic_dereference envBS c2St "B" "Sub" "Sub" (.oid 7)
    c2Doc).2.2.2.1 (by decide) (by decide) hnd (by decide) (by decide)
  exact ⟨⟨by decide, by decide, hnd, by decide, by decide, by decide⟩,
    h.1, fun st' a => h.2 (by decide) st' a⟩

theorem getDocD_cachePut (st : PyState) (c : String) (i : Value) (x b : Addr) :
    getDocD (cachePut st c i x) b = getDocD st b := rfl

theorem getDocD_setColl (st : PyState) (n : String) (c : Collection) (b : Addr) :
    getDocD (setColl st n c) b = getDocD st b := rfl

theorem getDocD_updDocData_self (st : PyState) (a : Addr) (f : Dict → Dict)
    (h : a < st.docs.length) :
    (getDocD (updDocData st a f) a).data = f (getDocD st a).data := by
  show (getDocD (setDocData st a (f (getDocD st a).data)) a).data = _
  rw [getDocD_setDocData_self st a _ h]

theorem save_inst_data (st : PyState) (cname : String) (c : Collection)
    (a : Addr) (f : Dict → Dict) (h : a < st.docs.length) :
    (getDocD (updDocData (setColl st cname c) a f) a).data =
      f (getDocD st a).data := by
  have hb : a < (setColl st cname c).docs.length := h
  rw [getDocD_updDocData_self _ a _ hb, getDocD_setColl]

/-- Claim C3: `save` validates first and on validation failure propagates the
error with no insert or update issued and no state change (the returned
computation carries no successor state at all); on success with no identity
it inserts the backing store (the stored document being the backing store
plus the freshly assigned identity), writes that identity into the
instance's backing store, registers the instance in the identity cache and
returns the instance; with an identity present it issues a full replace of
the stored document with the current backing store, changing nothing else,
and returns the instance. -/
theorem c3_save_validates_then_persists
    (env : ClassEnv) (st : PyState) (a : Addr) (ha : a < st.docs.length) :
    (∀ e, docValidate env st a = .error e → save env st a = .error e) ∧
    (docValidate env st a = .ok () → dHas (getDocD st a).data "_id" = false →
      ∃ st', save env st a = .ok (st', a) ∧
        (getColl st' (getDocD st a).cls).docs =
          (getColl st (getDocD st a).cls).docs ++
            [(.oid (getColl st (getDocD st a).cls).nextId,
              dSet (getDocD st a).data "_id"
                (.oid (getColl st (getDocD st a).cls).nextId))] ∧
        dGet (getDocD st' a).data "_id" =
          some (.oid (getColl st (getDocD st a).cls).nextId) ∧
        cacheGet st' (getDocD st a).cls
          (.oid (getColl st (getDocD st a).cls).nextId) = some a) ∧
    (∀ idv, docValidate env st a = .ok () →
      dGet (getDocD st a).data "_id" = some idv →
      save env st a = .ok (setColl st (getDocD st a).cls
        ⟨(getColl st (getDocD st a).cls).docs.map
          (fun p => if p.1 = idv then (p.1, (getDocD st a).data) else p),
         (getColl st (getDocD st a).cls).nextId⟩, a)) := by
  refine ⟨?_, ?_, ?_⟩
  · intro e hval
    simp only [save, hval, ebind_err]
  · intro hval hno
    simp only [save, hval, ebind_ok, hno, Bool.not_false, if_true]
    refine ⟨_, rfl, ?_, ?_, ?_⟩
    · show (getAssoc (putAssoc st.colls (getDocD st a).cls _) _ |>.getD _).docs = _
      rw [getAssoc_put_self]
      rfl
    · rw [getDocD_cachePut, save_inst_data _ _ _ _ _ ha]
      exact dGet_dSet_self _ "_id" _
    · show getAssoc (putAssoc _ _ a) _ = some a
      exact getAssoc_put_self _ _ a
  · intro idv hval hid
    have hyes : dHas (getDocD st a).data "_id" = true := by
      rw [dHas, hasAssoc]
      show (dGet (getDocD st a).data "_id").isSome = true
      rw [hid]
      rfl
    simp only [save, hval, ebind_ok, hyes, Bool.not_true, Bool.false_eq_true,
      if_false, hid]

/-- Claim C3 witness: on a `Task` missing its required fields `save` fails
with the validation-stage error and produces no successor state; on a valid
unsaved `Task` it inserts, stores the fresh identity, registers the cache
entry and returns the instance; on an already-saved `Task` it issues a full
replace. -/
theorem c3_save_validates_then_persists_witness :
    ((0 : Addr) < c6St.docs.length ∧
     docValidate envTask c6St 0 = .error (.attributeError "name") ∧
     (0 : Addr) < c3St.docs.length ∧ docValidate envTask c3St 0 = .ok () ∧
     dHas (getDocD c3St 0).data "_id" = false ∧
     (0 : Addr) < c3StSaved.docs.length ∧
     docValidate envTask c3StSaved 0 = .ok () ∧
     dGet (getDocD c3StSaved 0).data "_id" = some (.oid 0)) ∧
    save envTask c6St 0 = .error (.attributeError "name") ∧
    (∃ st', save envTask c3St 0 = .ok (st', 0) ∧
      (getColl st' (getDocD c3St 0).cls).docs =
        (getColl c3St (getDocD c3St 0).cls).docs ++
          [(.oid (getColl c3St (getDocD c3St 0).cls).nextId,
            dSet (getDocD c3St 0).data "_id"
              (.oid (getColl c3St (getDocD c3St 0).cls).nextId))] ∧
      dGet (getDocD st' 0).data "_id" =
        some (.oid (getColl c3St (getDocD c3St 0).cls).nextId) ∧
      cacheGet st' (getDocD c3St 0).cls
        (.oid (getColl c3St (getDocD c3St 0).cls).nextId) = some 0) ∧
    save envTask c3StSaved 0 = .ok (setColl c3StSaved (getDocD c3StSaved 0).cls
      ⟨(getColl c3StSaved (getDocD c3StSaved 0).cls).docs.map
        (fun p => if p.1 = (.oid 0 : Value)
                  then (p.1, (getDocD c3StSaved 0).data) else p),
       (getColl c3StSaved (getDocD c3StSaved 0).cls).nextId⟩, 0) :=
  ⟨⟨by decide, by decide, by decide, by decide, by decide, by decide,
    by decide, by decide⟩,
   (c3_save_validates_then_persists envTask c6St 0 (by decide)).1
     (.attributeError "name") (by decide),
   (c3_save_validates_then_persists envTask c3St 0 (by decide)).2.1
     (by decide) (by decide),
   (c3_save_validates_then_persists envTask c3StSaved 0 (by decide)).2.2
     (.oid 0) (by decide) (by decide)⟩

/-- Claim C4 counterexample: constructing a `User` with an `_id` that is
already present in the identity cache does *not* register the new instance —
`__init__` caches only when the id is absent (`... and not kwargs["_id"] in
self.__cache__`), so after the construction the cache still maps
`ObjectId(5)` to the old instance at address 0, not to the new instance at
address 1. -/
theorem c4_cache_registration_counterexample :
    (docInit envU c4St "User" c4Kwargs).map
      (fun p => (p.2, cacheGet p.1 "User" (.oid 5))) = .ok (1, some 0) ∧
    (1 : Addr) ≠ 0 ∧ cacheGet c4St "User" (.oid 5) = some 0 :=
  ⟨by decide, by decide, by decide⟩

/-- Claim C4 (amended): during construction, if an identity argument is
supplied and that identity is *not* yet present in the identity cache, the
new instance registers itself under that identity; if the identity is
already present, the new instance does not register and the existing cache
binding — still naming the old instance, which is a different object from
the new one — is left unchanged. -/
theorem c4_construction_cache_registration
    (env : ClassEnv) (st st' : PyState) (cls : String) (kw : Dict)
    (idv : Value) (a : Addr) (hk : dGet kw "_id" = some idv)
    (hraw : rawDict kw = true) (hrun : docInit env st cls kw = .ok (st', a)) :
    (cacheGet st cls idv = none → cacheGet st' cls idv = some a) ∧
    (∀ a0, cacheGet st cls idv = some a0 →
      cacheGet st' cls idv = some a0 ∧ (cacheWF st = true → a0 ≠ a)) := by
  obtain ⟨q1, q2, q3, q4⟩ := docInit_spec env st st' cls kw a hraw hrun
  simp only [hk] at q4
  constructor
  · intro hc
    simp only [hc, Option.isNone_none, if_true] at q4
    show getAssoc st'.caches (cls, idv) = some a
    rw [q4, q1]
    exact getAssoc_put_self _ _ _
  · intro a0 hc
    simp only [hc, Option.isNone_some, Bool.false_eq_true, if_false] at q4
    refine ⟨?_, ?_⟩
    · show getAssoc st'.caches (cls, idv) = some a0
      rw [q4]
      exact hc
    · intro hwf heq
      have hlt := cacheWF_lt st cls idv a0 hwf hc
      rw [heq, q1] at hlt
      exact lt_irrefl _ hlt

/-- Claim C4 witness: the amended rule applied to a concrete cache miss
(`ObjectId(1)`, which registers the new instance at address 0) and a
concrete cache hit (`ObjectId(5)`, which leaves the binding at the old
instance 0 while the new instance is 1). -/
theorem c4_construction_cache_registration_witness :
    (dGet c1Doc1 "_id" = some (.oid 1) ∧ rawDict c1Doc1 = true ∧
     docInit envU c8St "User" c1Doc1 = .ok (c1St1, 0) ∧
     cacheGet c8St "User" (.oid 1) = none ∧
     dGet c4Kwargs "_id" = some (.oid 5) ∧ rawDict c4Kwargs = true ∧
     docInit envU c4St "User" c4Kwargs = .ok (c4StAfter, 1) ∧
     cacheGet c4St "User" (.oid 5) = some 0 ∧ cacheWF c4St = true) ∧
    cacheGet c1St1 "User" (.oid 1) = some 0 ∧
    cacheGet c4StAfter "User" (.oid 5) = some 0 ∧ (0 : Addr) ≠ 1 := by
  refine ⟨⟨by decide, by decide, by decide, by decide, by decide, by decide,
    by decide, by decide, by decide⟩, ?_, ?_, ?_⟩
  · exact (c4_construction_cache_registration envU c8St c1St1 "User" c1Doc1
      (.oid 1) 0 (by decide) (by decide) (by decide)).1 (by decide)
  · exact ((c4_construction_cache_registration envU c4St c4StAfter "User"
      c4Kwargs (.oid 5) 1 (by decide) (by decide) (by decide)).2 0
      (by decide)).1
  · exact ((c4_construction_cache_registration envU c4St c4StAfter "User"
      c4Kwargs (.oid 5) 1 (by decide) (by decide) (by decide)).2 0
      (by decide)).2 (by decide)

/-- Claim C5 counterexample: value defaults are copied with `copy.copy`,
which is a *shallow* copy.  With `tags = Field(list, default=[[0]])`, two
default-constructed `Post` instances get distinct top-level list objects
(addresses 2 and 4) that both contain the *same* inner list object (address
1): executing `post0.tags[0][0] = 7` changes what `post1.tags[0][0]` reads
from `0` to `7`, so the two instances share mutable default state and the
default is not deep-copied. -/
theorem c5_default_sharing_counterexample :
    ((docInit envPost stPost "Post" []).bind (fun p =>
      (docInit envPost p.1 "Post" []).map (fun q =>
        (p.2, q.2,
         dGet (getDocD q.1 p.2).data "tags", dGet (getDocD q.1 q.2).data "tags",
         readListD q.1 2, readListD q.1 4,
         readTags00 q.1 q.2,
         readTags00 (mutateTags00 q.1 p.2 (.int 7)) q.2))))
      = .ok (0, 1, some (.listV 2), some (.listV 4), [.listV 1], [.listV 1],
             .int 0, .int 7) := rfl

/-- Claim C5 (amended): explicit arguments are applied first and only then
does every declared field with a non-null default and no value yet present
receive its default; value defaults are *shallow*-copied per instance and
producer defaults are invoked fresh per instance, so the top-level container
objects are never shared between instances (a top-level mutation through one
is invisible through the other), though mutable values nested inside a value
default may be shared. -/
theorem c5_defaults_shallow_and_ordered :
    (∀ a : Addr, (docInit envPost stPost "Post" [("tags", .listV a)]).map
        (fun p => dGet (getDocD p.1 p.2).data "tags") = .ok (some (.listV a))) ∧
    ((docInit envPost stPost "Post" []).bind (fun p =>
       (docInit envPost p.1 "Post" []).map (fun q =>
         (dGet (getDocD q.1 p.2).data "tags", dGet (getDocD q.1 q.2).data "tags",
          dGet (getDocD q.1 p.2).data "items", dGet (getDocD q.1 q.2).data "items",
          readListD (writeList q.1 2 0 (.int 9)) 4,
          readListD (writeList q.1 3 0 (.int 9)) 5))))
      = .ok (some (.listV 2), some (.listV 4), some (.listV 3), some (.listV 5),
             [.listV 1], []) ∧
    (2 : Addr) ≠ 4 ∧ (3 : Addr) ≠ 5 :=
  ⟨fun _ => rfl, rfl, by decide, by decide⟩

/-- Claim C6 (code bug): `validate` does collect every missing required
field across the declared fields without short-circuiting (here both
`"title"` and `"body"`), but the failure path then evaluates `self.name` to
format the message — an attribute no document defines — so instead of the
intended aggregate `ValidationError` naming the document type, the call
raises `AttributeError: name`; no `ValidationError` is ever produced. -/
theorem c6_validate_raises_attribute_error :
    missingRequired envTask "Task" (getDocD c6St 0).data = ["title", "body"] ∧
    docValidate envTask c6St 0 = .error (.attributeError "name") ∧
    (∀ m, docValidate envTask c6St 0 ≠ .error (.validationError m)) :=
  ⟨by decide, by decide, fun m h => by
    rw [show docValidate envTask c6St 0 = .error (.attributeError "name")
      from by decide] at h
    simp at h⟩

theorem save_insert_eq (env : ClassEnv) (st : PyState) (a : Addr)
    (hval : docValidate env st a = .ok ())
    (hno : dHas (getDocD st a).data "_id" = false) :
    save env st a = .ok (cachePut (updDocData (setColl st (getDocD st a).cls
      ⟨(getColl st (getDocD st a).cls).docs ++
        [(.oid (getColl st (getDocD st a).cls).nextId,
          dSet (getDocD st a).data "_id"
            (.oid (getColl st (getDocD st a).cls).nextId))],
       (getColl st (getDocD st a).cls).nextId + 1⟩)
      a (fun d => dSet d "_id" (.oid (getColl st (getDocD st a).cls).nextId)))
      (getDocD st a).cls (.oid (getColl st (getDocD st a).cls).nextId) a, a) := by
  simp only [save, hval, ebind_ok, hno, Bool.not_false, if_true]

theorem getDocD_updDocData_ne (st : PyState) (x y : Addr) (f : Dict → Dict)
    (h : x ≠ y) : getDocD (updDocData st x f) y = getDocD st y :=
  getDocD_setDocData_ne st x y _ h

/-- The state produced by the insert path of `save`, described by its
observable components. -/
theorem save_insert_props (env : ClassEnv) (st : PyState) (b : Addr)
    (hval : docValidate env st b = .ok ())
    (hno : dHas (getDocD st b).data "_id" = false) (hb : b < st.docs.length) :
    ∃ stS, save env st b = .ok (stS, b) ∧
      stS.docs.length = st.docs.length ∧
      (getDocD stS b).data = dSet (getDocD st b).data "_id"
        (.oid (getColl st (getDocD st b).cls).nextId) ∧
      (∀ y, b ≠ y → getDocD stS y = getDocD st y) ∧
      stS.colls = putAssoc st.colls (getDocD st b).cls
        ⟨(getColl st (getDocD st b).cls).docs ++
          [(.oid (getColl st (getDocD st b).cls).nextId,
            dSet (getDocD st b).data "_id"
              (.oid (getColl st (getDocD st b).cls).nextId))],
         (getColl st (getDocD st b).cls).nextId + 1⟩ ∧
      stS.caches = putAssoc st.caches
        ((getDocD st b).cls, .oid (getColl st (getDocD st b).cls).nextId) b := by
  refine ⟨_, save_insert_eq env st b hval hno, ?_, ?_, ?_, rfl, rfl⟩
  · show ((setColl st _ _).docs.set b _).length = st.docs.length
    rw [List.length_set]
    rfl
  · rw [getDocD_cachePut, save_inst_data _ _ _ _ _ hb]
  · intro y hy
    rw [getDocD_cachePut, getDocD_updDocData_ne _ _ _ _ hy, getDocD_setColl]

/-- Claim C7: writing a single reference field accepts either a raw `DBRef`,
stored verbatim, or a document instance; a document that already has an
identity contributes `DBRef(its type tag, its identity)` with no other state
change, and a document without an identity is saved first — persisting it,
assigning it the fresh identity and caching it — before the reference
derived from that freshly persisted identity is stored. -/
theorem c7_reffield_write
    (env : ClassEnv) (st : PyState) (a b : Addr) (name t : String)
    (f : FieldDecl) (idv : Value)
    (hf : getAssoc (fieldsOf env (getDocD st a).cls) name = some f)
    (hk : f.kind = .refK) :
    (∀ c i, setattrDoc env st a name (.dbref c i) =
      .ok (updDocData st a (fun d => dSet d name (.dbref c i)))) ∧
    (dGet (getDocD st b).data "_type" = some (.str t) →
     dGet (getDocD st b).data "_id" = some idv →
     setattrDoc env st a name (.docV b) =
       .ok (updDocData st a (fun d => dSet d name (.dbref t idv)))) ∧
    (dHas (getDocD st b).data "_id" = false →
     docValidate env st b = .ok () →
     dGet (getDocD st b).data "_type" = some (.str t) →
     a ≠ b → b < st.docs.length → a < st.docs.length →
     ∃ st', setattrDoc env st a name (.docV b) = .ok st' ∧
       dGet (getDocD st' a).data name =
         some (.dbref t (.oid (getColl st (getDocD st b).cls).nextId)) ∧
       dGet (getDocD st' b).data "_id" =
         some (.oid (getColl st (getDocD st b).cls).nextId) ∧
       (getColl st' (getDocD st b).cls).docs =
         (getColl st (getDocD st b).cls).docs ++
           [(.oid (getColl st (getDocD st b).cls).nextId,
             dSet (getDocD st b).data "_id"
               (.oid (getColl st (getDocD st b).cls).nextId))] ∧
       cacheGet st' (getDocD st b).cls
         (.oid (getColl st (getDocD st b).cls).nextId) = some b) := by
  refine ⟨?_, ?_, ?_⟩
  · intro c i
    simp only [setattrDoc, hf, fieldSet, hk, to_ref, ebind_ok]
  · intro htag hid
    have hhas : dHas (getDocD st b).data "_id" = true := by
      rw [dHas, hasAssoc]
      show (dGet (getDocD st b).data "_id").isSome = true
      rw [hid]
      rfl
    have hderef : docRef env st b = .ok (st, .dbref t idv) := by
      simp only [docRef, hhas, Bool.not_true, Bool.false_eq_true, if_false,
        ebind_ok, htag, hid]
    simp only [setattrDoc, hf, fieldSet, hk, to_ref, hderef, ebind_ok]
  · intro hno hval htag hab hb ha
    obtain ⟨stS, hsave, hlen, hdataB, hother, hcolls, hcaches⟩ :=
      save_insert_props env st b hval hno hb
    have h1 : dGet (getDocD stS b).data "_type" = some (.str t) := by
      rw [hdataB, dGet_dSet_ne _ _ _ _ (by decide)]
      exact htag
    have h2 : dGet (getDocD stS b).data "_id" =
        some (.oid (getColl st (getDocD st b).cls).nextId) := by
      rw [hdataB]
      exact dGet_dSet_self _ _ _
    have hderef : docRef env st b =
        .ok (stS, .dbref t (.oid (getColl st (getDocD st b).cls).nextId)) := by
      simp only [docRef, hno, Bool.not_false, if_true, hsave, ebind_ok, h1, h2]
    have hset : setattrDoc env st a name (.docV b) =
        .ok (updDocData stS a (fun d => dSet d name
          (.dbref t (.oid (getColl st (getDocD st b).cls).nextId)))) := by
      simp only [setattrDoc, hf, fieldSet, hk, to_ref, hderef, ebind_ok]
    refine ⟨_, hset, ?_, ?_, ?_, ?_⟩
    · rw [getDocD_updDocData_self _ a _ (by rw [hlen]; exact ha)]
      exact dGet_dSet_self _ _ _
    · rw [getDocD_updDocData_ne _ _ _ _ hab, hdataB]
      exact dGet_dSet_self _ _ _
    · show ((getAssoc stS.colls (getDocD st b).cls).getD _).docs = _
      rw [hcolls, getAssoc_put_self]
      rfl
    · show getAssoc stS.caches
        ((getDocD st b).cls, .oid (getColl st (getDocD st b).cls).nextId) = some b
      rw [hcaches]
      exact getAssoc_put_self _ _ _

/-- Claim C7 witness: raw-reference write, write of an already-saved
`Author` (reference derived from its stored identity, no save), and write of
a never-saved `Author` (saved first, then referenced by the fresh
identity). -/
theorem c7_reffield_write_witness :
    (getAssoc (fieldsOf envBook (getDocD c7St 0).cls) "author" =
       some (mkRefField "Book" none false) ∧
     (mkRefField "Book" none false).kind = .refK ∧
     dHas (getDocD c7St 1).data "_id" = false ∧
     docValidate envBook c7St 1 = .ok () ∧
     dGet (getDocD c7St 1).data "_type" = some (.str "Author") ∧
     dGet (getDocD c7StSaved 1).data "_type" = some (.str "Author") ∧
     dGet (getDocD c7StSaved 1).data "_id" = some (.oid 3)) ∧
    setattrDoc envBook c7St 0 "author" (.dbref "X" (.oid 9)) =
      .ok (updDocData c7St 0 (fun d => dSet d "author" (.dbref "X" (.oid 9)))) ∧
    setattrDoc envBook c7StSaved 0 "author" (.docV 1) =
      .ok (updDocData c7StSaved 0
        (fun d => dSet d "author" (.dbref "Author" (.oid 3)))) ∧
    (∃ st', setattrDoc envBook c7St 0 "author" (.docV 1) = .ok st' ∧
      dGet (getDocD st' 0).data "author" =
        some (.dbref "Author" (.oid (getColl c7St (getDocD c7St 1).cls).nextId)) ∧
      dGet (getDocD st' 1).data "_id" =
        some (.oid (getColl c7St (getDocD c7St 1).cls).nextId) ∧
      (getColl st' (getDocD c7St 1).cls).docs =
        (getColl c7St (getDocD c7St 1).cls).docs ++
          [(.oid (getColl c7St (getDocD c7St 1).cls).nextId,
            dSet (getDocD c7St 1).data "_id"
              (.oid (getColl c7St (getDocD c7St 1).cls).nextId))] ∧
      cacheGet st' (getDocD c7St 1).cls
        (.oid (getColl c7St (getDocD c7St 1).cls).nextId) = some 1) :=
  ⟨⟨by decide, by decide, by decide, by decide, by decide, by decide,
    by decide⟩,
   (c7_reffield_write envBook c7St 0 1 "author" "Author"
     (mkRefField "Book" none false) (.oid 3) (by decide) (by decide)).1
     "X" (.oid 9),
   (c7_reffield_write envBook c7StSaved 0 1 "author" "Author"
     (mkRefField "Book" none false) (.oid 3) (by decide) (by decide)).2.1
     (by decide) (by decide),
   (c7_reffield_write envBook c7St 0 1 "author" "Author"
     (mkRefField "Book" none false) (.oid 3) (by decide) (by decide)).2.2
     (by decide) (by decide) (by decide) (by decide) (by decide) (by decide)⟩

/-- Claim C8 (code bug): with decoding enabled and no matching document,
`find_one` receives `None` from storage and immediately subscripts it
(`doc["_id"]`), surfacing an incidental `TypeError` — neither a
`NotFound`-style error (no such error class exists in the code) nor an
explicit empty result; only the decode-disabled path returns the explicit
empty result. -/
theorem c8_find_one_no_match_type_error :
    colFindOne (getColl c8St "User") [] = none ∧
    find_one envU c8St "User" true [] =
      .error (.typeError "NoneType object is unsubscriptable") ∧
    find_one envU c8St "User" false [] = .ok (c8St, .raw none) ∧
    (∀ st' r, find_one envU c8St "User" true [] ≠ .ok (st', r)) :=
  ⟨by decide, by decide, by decide, fun st' r h => by
    rw [show find_one envU c8St "User" true [] =
      .error (.typeError "NoneType object is unsubscriptable")
      from by decide] at h
    simp at h⟩

/-- Claim C9: neither embedded-container field kind can ever be
instantiated: `DictField.__init__` calls `super(ListRefField, self)` and
`ListDictField.__init__` calls `super(ListField, self)`, but `DictField` is
not a subclass of `ListRefField` and `ListDictField` is not a subclass of
`ListField`, so every invocation raises `TypeError` at the `super` call,
whatever the arguments. -/
theorem c9_container_fields_unconstructible :
    ∀ kwargs : Dict,
      dictFieldInit "DictField" kwargs =
        .error (.typeError
          "super(type, obj): obj must be an instance or subtype of type") ∧
      listDictFieldInit "ListDictField" kwargs =
        .error (.typeError
          "super(type, obj): obj must be an instance or subtype of type") ∧
      fieldIsSub "DictField" "ListRefField" = false ∧
      fieldIsSub "ListDictField" "ListField" = false :=
  fun _ => ⟨rfl, rfl, rfl, rfl⟩

theorem getDocD_fvalPut (st : PyState) (c n : String) (v : Value) (y : Addr) :
    getDocD (fvalPut st c n v) y = getDocD st y := rfl

theorem readListD_fvalPut (st : PyState) (c n : String) (v : Value) (x : Addr) :
    readListD (fvalPut st c n v) x = readListD st x := rfl

theorem readList_writeList_self (st : PyState) (x : Addr) (k : Nat) (v : Value)
    (h : x < st.lists.length) :
    readListD (writeList st x k v) x = (readListD st x).set k v := by
  show ((st.lists.set x _).get? x).getD _ = _
  rw [lget_set_self _ _ _ h]
  rfl

theorem readList_writeList_ne (st : PyState) (x y : Addr) (k : Nat) (v : Value)
    (h : x ≠ y) : readListD (writeList st x k v) y = readListD st y := by
  show ((st.lists.set x _).get? y).getD _ = _
  rw [lget_set_ne _ _ _ _ h]
  rfl

/-- Claim C10: the list-field proxy's state lives on the single field object
of the document type (its `_value` slot, keyed here by the declaration
site), not on instances: after reading the field on instance `a` and then on
instance `b`, one index assignment through the proxy writes into `b`'s
stored list — the most recently read instance — while `a`'s stored list and
every instance's backing-store dict are untouched. -/
theorem c10_list_proxy_targets_last_read
    (env : ClassEnv) (st : PyState) (a b la lb : Addr) (name : String)
    (f : FieldDecl) (k : Nat) (v : Value)
    (hfa : getAssoc (fieldsOf env (getDocD st a).cls) name = some f)
    (hfb : getAssoc (fieldsOf env (getDocD st b).cls) name = some f)
    (hda : dGet (getDocD st a).data name = some (.listV la))
    (hdb : dGet (getDocD st b).data name = some (.listV lb))
    (hne : la ≠ lb) (hlb : lb < st.lists.length)
    (hk : k < (readListD st lb).length) (hv : isinstAny v f.types = true) :
    proxyScenario env st a b name f k v =
      .ok (writeList (fvalPut (fvalPut st f.declCls name (.listV la))
        f.declCls name (.listV lb)) lb k v) ∧
    ∀ st3, proxyScenario env st a b name f k v = .ok st3 →
      readListD st3 lb = (readListD st lb).set k v ∧
      readListD st3 la = readListD st la ∧
      st3.docs = st.docs ∧
      fvalGet st3 f.declCls name = some (.listV lb) := by
  have hget1 : listField_get env st a name =
      .ok (fvalPut st f.declCls name (.listV la)) := by
    simp only [listField_get, hfa, hda]
  have hget2 : listField_get env (fvalPut st f.declCls name (.listV la)) b name =
      .ok (fvalPut (fvalPut st f.declCls name (.listV la)) f.declCls name
        (.listV lb)) := by
    simp only [listField_get, getDocD_fvalPut, hfb, hdb]
  have hval2 : fieldValidate name f v = .ok () := by
    rw [fieldValidate, if_pos hv]
  have hfv : fvalGet (fvalPut (fvalPut st f.declCls name (.listV la))
      f.declCls name (.listV lb)) f.declCls name = some (.listV lb) :=
    getAssoc_put_self _ _ _
  have hset : listField_setitem (fvalPut (fvalPut st f.declCls name (.listV la))
      f.declCls name (.listV lb)) name f k v =
      .ok (writeList (fvalPut (fvalPut st f.declCls name (.listV la))
        f.declCls name (.listV lb)) lb k v) := by
    simp only [listField_setitem, hval2, ebind_ok, hfv, readListD_fvalPut]
    rw [if_pos hk]
  have hmain : proxyScenario env st a b name f k v =
      .ok (writeList (fvalPut (fvalPut st f.declCls name (.listV la))
        f.declCls name (.listV lb)) lb k v) := by
    simp only [proxyScenario, hget1, ebind_ok, hget2, hset]
  refine ⟨hmain, ?_⟩
  intro st3 h3
  rw [hmain] at h3
  have h3' : writeList (fvalPut (fvalPut st f.declCls name (.listV la))
      f.declCls name (.listV lb)) lb k v = st3 := by
    injection h3
  subst h3'
  have hlb2 : lb < (fvalPut (fvalPut st f.declCls name (.listV la))
      f.declCls name (.listV lb)).lists.length := hlb
  refine ⟨?_, ?_, rfl, hfv⟩
  · rw [readList_writeList_self _ _ _ _ hlb2, readListD_fvalPut,
      readListD_fvalPut]
  · rw [readList_writeList_ne _ _ _ _ _ (fun hc => hne hc.symm),
      readListD_fvalPut, readListD_fvalPut]

/-- Claim C10 witness: two concrete `Board` instances; reading `items` on
instance 0 then on instance 1 and assigning index 0 through the proxy writes
`99` into instance 1's stored list, leaving instance 0's list and all
backing-store dicts unchanged. -/
theorem c10_list_proxy_targets_last_read_witness :
    (getAssoc (fieldsOf envBoard (getDocD c10St 0).cls) "items" =
       some boardItems ∧
     getAssoc (fieldsOf envBoard (getDocD c10St 1).cls) "items" =
       some boardItems ∧
     dGet (getDocD c10St 0).data "items" = some (.listV 0) ∧
     dGet (getDocD c10St 1).data "items" = some (.listV 1) ∧
     (0 : Addr) ≠ 1 ∧ 1 < c10St.lists.length ∧
     0 < (readListD c10St 1).length ∧
     isinstAny (.int 99) boardItems.types = true) ∧
    proxyScenario envBoard c10St 0 1 "items" boardItems 0 (.int 99) =
      .ok (writeList (fvalPut (fvalPut c10St boardItems.declCls "items"
        (.listV 0)) boardItems.declCls "items" (.listV 1)) 1 0 (.int 99)) ∧
    (∀ st3, proxyScenario envBoard c10St 0 1 "items" boardItems 0 (.int 99) =
        .ok st3 →
      readListD st3 1 = (readListD c10St 1).set 0 (.int 99) ∧
      readListD st3 0 = readListD c10St 0 ∧
      st3.docs = c10St.docs ∧
      fvalGet st3 boardItems.declCls "items" = some (.listV 1)) :=
  ⟨⟨by decide, by decide, by decide, by decide, by decide, by decide,
    by decide, by decide⟩,
   (c10_list_proxy_targets_last_read envBoard c10St 0 1 0 1 "items" boardItems
     0 (.int 99) (by decide) (by decide) (by decide) (by decide) (by decide)
     (by decide) (by decide) (by decide)).1,
   (c10_list_proxy_targets_last_read envBoard c10St 0 1 0 1 "items" boardItems
     0 (.int 99) (by decide) (by decide) (by decide) (by decide) (by decide)
     (by decide) (by decide) (by decide)).2⟩
